import Mathlib

/-!
Verification of the city map poster generator's geometry pipeline.

The Python sources are embedded shallowly:
* floating point numbers become `ℚ` (the spec reads all numeric equalities
  "within floating tolerance", which is exact arithmetic here);
* Python's implicit `ZeroDivisionError` (and `ValueError` from `min`/`max`
  of an empty sequence) become an explicit `Except PyError` result;
* GeoDataFrames become lists of rows carrying the attributes the code
  actually reads (geometry type string, tag values).
-/

/-- Errors Python raises implicitly in the embedded code paths. -/
inductive PyError where
  | zeroDivision
  | valueError
deriving DecidableEq, Repr

/-! ## Crop-window solver (`data_processing.get_crop_limits`) -/

/--
Core of `get_crop_limits` (data_processing.py lines 40-71), taking the node
extent already computed.  Each Python float division that can raise
`ZeroDivisionError` is guarded explicitly: `desired_aspect = fig_width /
fig_height`, `current_aspect = x_range / y_range`, and `desired_y_range =
x_range / desired_aspect`.  Divisions by the literal `2` cannot raise and
stay plain divisions.
-/
def crop_from_extent (minx maxx miny maxy figW figH : ℚ) :
    Except PyError ((ℚ × ℚ) × (ℚ × ℚ)) :=
  let x_range := maxx - minx
  let y_range := maxy - miny
  if figH = 0 then .error .zeroDivision else
  let desired_aspect := figW / figH
  if y_range = 0 then .error .zeroDivision else
  let current_aspect := x_range / y_range
  let center_x := (minx + maxx) / 2
  let center_y := (miny + maxy) / 2
  if current_aspect > desired_aspect then
    -- Too wide, need to crop horizontally
    let desired_x_range := y_range * desired_aspect
    .ok ((center_x - desired_x_range / 2, center_x + desired_x_range / 2),
         (miny, maxy))
  else if current_aspect < desired_aspect then
    -- Too tall, need to crop vertically
    if desired_aspect = 0 then .error .zeroDivision else
    let desired_y_range := x_range / desired_aspect
    .ok ((minx, maxx),
         (center_y - desired_y_range / 2, center_y + desired_y_range / 2))
  else
    -- Otherwise, keep original extents
    .ok ((minx, maxx), (miny, maxy))

/-- Python `min(x0, *l)` over a nonempty sequence. -/
def pymin (a : ℚ) (l : List ℚ) : ℚ := l.foldl min a

/-- Python `max(x0, *l)` over a nonempty sequence. -/
def pymax (a : ℚ) (l : List ℚ) : ℚ := l.foldl max a

/--
Function `get_crop_limits` (data_processing.py lines 21-71): collect the node
coordinates, take their extent, then crop to the figure's aspect ratio.
`min([])` in Python raises `ValueError`, covered by the empty case.
-/
def get_crop_limits (nodes : List (ℚ × ℚ)) (figW figH : ℚ) :
    Except PyError ((ℚ × ℚ) × (ℚ × ℚ)) :=
  match nodes with
  | [] => .error .valueError
  | n :: rest =>
      crop_from_extent
        (pymin n.1 (rest.map Prod.fst)) (pymax n.1 (rest.map Prod.fst))
        (pymin n.2 (rest.map Prod.snd)) (pymax n.2 (rest.map Prod.snd))
        figW figH

/-! ## Coordinate projection (`svg_renderer.transform_coordinates`) -/

/--
Function `transform_coordinates` (svg_renderer.py lines 120-141): scale into the
canvas and flip the vertical axis (the drawing surface has a top-left
origin).
-/
def transform_coordinates (coords : List (ℚ × ℚ)) (xlim ylim : ℚ × ℚ)
    (width height : ℚ) : List (ℚ × ℚ) :=
  let x_scale := width / (xlim.2 - xlim.1)
  let y_scale := height / (ylim.2 - ylim.1)
  coords.map (fun c => ((c.1 - xlim.1) * x_scale,
                        height - (c.2 - ylim.1) * y_scale))

/-! ## Helper lemmas about the crop solver -/

theorem pymin_le_init (l : List ℚ) (a : ℚ) : pymin a l ≤ a := by
  induction l generalizing a with
  | nil => exact le_refl a
  | cons c l ih =>
      calc pymin a (c :: l) = pymin (min a c) l := rfl
        _ ≤ min a c := ih _
        _ ≤ a := min_le_left _ _

theorem pymin_le_mem (l : List ℚ) (a b : ℚ) (hb : b ∈ l) : pymin a l ≤ b := by
  induction l generalizing a with
  | nil => cases hb
  | cons c l ih =>
      rcases List.mem_cons.mp hb with rfl | hb
      · calc pymin a (b :: l) = pymin (min a b) l := rfl
          _ ≤ min a b := pymin_le_init _ _
          _ ≤ b := min_le_right _ _
      · exact ih _ hb

theorem le_pymax_init (l : List ℚ) (a : ℚ) : a ≤ pymax a l := by
  induction l generalizing a with
  | nil => exact le_refl a
  | cons c l ih =>
      calc a ≤ max a c := le_max_left _ _
        _ ≤ pymax (max a c) l := ih _
        _ = pymax a (c :: l) := rfl

theorem le_pymax_mem (l : List ℚ) (a b : ℚ) (hb : b ∈ l) : b ≤ pymax a l := by
  induction l generalizing a with
  | nil => cases hb
  | cons c l ih =>
      rcases List.mem_cons.mp hb with rfl | hb
      · calc b ≤ max a b := le_max_right _ _
          _ ≤ pymax (max a b) l := le_pymax_init _ _
          _ = pymax a (b :: l) := rfl
      · exact ih _ hb

/--
Main functional specification of the crop solver on a non-degenerate
extent: it succeeds, both crop ranges are positive, the crop's aspect ratio
is exactly the figure's, and the crop window lies inside the extent.
-/
theorem crop_from_extent_spec (minx maxx miny maxy figW figH : ℚ)
    (hx : minx < maxx) (hy : miny < maxy) (hW : 0 < figW) (hH : 0 < figH) :
    ∃ xlim ylim : ℚ × ℚ,
      crop_from_extent minx maxx miny maxy figW figH = .ok (xlim, ylim) ∧
      0 < xlim.2 - xlim.1 ∧ 0 < ylim.2 - ylim.1 ∧
      (xlim.2 - xlim.1) / (ylim.2 - ylim.1) = figW / figH ∧
      minx ≤ xlim.1 ∧ xlim.2 ≤ maxx ∧ miny ≤ ylim.1 ∧ ylim.2 ≤ maxy := by
  have hxr : (0 : ℚ) < maxx - minx := sub_pos.mpr hx
  have hyr : (0 : ℚ) < maxy - miny := sub_pos.mpr hy
  have hda : (0 : ℚ) < figW / figH := div_pos hW hH
  rw [crop_from_extent]
  simp only [if_neg hH.ne', if_neg hyr.ne', gt_iff_lt]
  rcases lt_trichotomy ((maxx - minx) / (maxy - miny)) (figW / figH) with
    hlt | heq | hgt
  · -- extent too tall: crop vertically
    rw [if_neg (not_lt.mpr hlt.le), if_pos hlt, if_neg hda.ne']
    have hlt2 : maxx - minx < figW / figH * (maxy - miny) :=
      (div_lt_iff₀ hyr).mp hlt
    have hcomm : figW / figH * (maxy - miny) = (maxy - miny) * (figW / figH) :=
      mul_comm _ _
    have hdle : (maxx - minx) / (figW / figH) ≤ maxy - miny := by
      rw [div_le_iff₀ hda]
      linarith
    refine ⟨(minx, maxx),
      ((miny + maxy) / 2 - (maxx - minx) / (figW / figH) / 2,
       (miny + maxy) / 2 + (maxx - minx) / (figW / figH) / 2),
      rfl, hxr, ?_, ?_, le_refl _, le_refl _, ?_, ?_⟩
    · have h3 : ((miny + maxy) / 2 + (maxx - minx) / (figW / figH) / 2) -
          ((miny + maxy) / 2 - (maxx - minx) / (figW / figH) / 2) =
          (maxx - minx) / (figW / figH) := by ring
      rw [h3]
      exact div_pos hxr hda
    · have h3 : ((miny + maxy) / 2 + (maxx - minx) / (figW / figH) / 2) -
          ((miny + maxy) / 2 - (maxx - minx) / (figW / figH) / 2) =
          (maxx - minx) / (figW / figH) := by ring
      rw [h3]
      rw [div_div_eq_mul_div, mul_comm, mul_div_assoc, div_self hxr.ne',
        mul_one]
    · simp only []
      linarith
    · simp only []
      linarith
  · -- aspect already matches: keep the extent
    rw [if_neg (not_lt.mpr heq.le), if_neg (not_lt.mpr heq.ge)]
    exact ⟨(minx, maxx), (miny, maxy), rfl, hxr, hyr, heq,
      le_refl _, le_refl _, le_refl _, le_refl _⟩
  · -- extent too wide: crop horizontally
    rw [if_pos hgt]
    have hgt2 : figW / figH * (maxy - miny) < maxx - minx :=
      (lt_div_iff₀ hyr).mp hgt
    have hcomm : figW / figH * (maxy - miny) = (maxy - miny) * (figW / figH) :=
      mul_comm _ _
    refine ⟨((minx + maxx) / 2 - (maxy - miny) * (figW / figH) / 2,
             (minx + maxx) / 2 + (maxy - miny) * (figW / figH) / 2),
      (miny, maxy), rfl, ?_, hyr, ?_, ?_, ?_, le_refl _, le_refl _⟩
    · have h3 : ((minx + maxx) / 2 + (maxy - miny) * (figW / figH) / 2) -
          ((minx + maxx) / 2 - (maxy - miny) * (figW / figH) / 2) =
          (maxy - miny) * (figW / figH) := by ring
      rw [h3]
      exact mul_pos hyr hda
    · have h3 : ((minx + maxx) / 2 + (maxy - miny) * (figW / figH) / 2) -
          ((minx + maxx) / 2 - (maxy - miny) * (figW / figH) / 2) =
          (maxy - miny) * (figW / figH) := by ring
      rw [h3, mul_comm, mul_div_assoc, div_self hyr.ne', mul_one]
    · simp only []
      linarith
    · simp only []
      linarith

/-! ## Claims about the crop solver (C1, C2, C3) -/

/--
Claim C1: for every target aspect ratio `figW/figH > 0` and every
non-degenerate extent, the crop window returned by the solver has
width/height ratio exactly the target, each returned range lies within the
corresponding full-extent range, and in particular for extent width 200,
height 100 and target 1:1 the y-range is unchanged and the x-range is
shrunk to 100 centered on the original x-center.
-/
theorem C1_crop_ratio_and_containment (minx maxx miny maxy figW figH : ℚ)
    (hx : minx < maxx) (hy : miny < maxy) (hW : 0 < figW) (hH : 0 < figH) :
    (∃ xlim ylim : ℚ × ℚ,
        crop_from_extent minx maxx miny maxy figW figH = .ok (xlim, ylim) ∧
        0 < ylim.2 - ylim.1 ∧
        (xlim.2 - xlim.1) / (ylim.2 - ylim.1) = figW / figH ∧
        minx ≤ xlim.1 ∧ xlim.2 ≤ maxx ∧ miny ≤ ylim.1 ∧ ylim.2 ≤ maxy) ∧
    get_crop_limits [(0, 0), (200, 100)] 1 1 = .ok ((50, 150), (0, 100)) := by
  constructor
  · obtain ⟨xl, yl, h1, _, h3, h4, h5, h6, h7, h8⟩ :=
      crop_from_extent_spec minx maxx miny maxy figW figH hx hy hW hH
    exact ⟨xl, yl, h1, h3, h4, h5, h6, h7, h8⟩
  · norm_num [get_crop_limits, crop_from_extent, pymin, pymax]

/-- Witness for C1 at the concrete extent 0..2 by 0..1 with target 1:1. -/
theorem C1_crop_ratio_and_containment_witness :
    (∃ xlim ylim : ℚ × ℚ,
        crop_from_extent 0 2 0 1 1 1 = .ok (xlim, ylim) ∧
        0 < ylim.2 - ylim.1 ∧
        (xlim.2 - xlim.1) / (ylim.2 - ylim.1) = 1 / 1 ∧
        (0:ℚ) ≤ xlim.1 ∧ xlim.2 ≤ 2 ∧ (0:ℚ) ≤ ylim.1 ∧ ylim.2 ≤ 1) ∧
    get_crop_limits [(0, 0), (200, 100)] 1 1 = .ok ((50, 150), (0, 100)) :=
  C1_crop_ratio_and_containment 0 2 0 1 1 1 (by norm_num) (by norm_num)
    (by norm_num) (by norm_num)

/--
Claim C2 counterexample: the nodes `(0,0)` and `(0,1)` are two distinct
positions, yet the crop window returned for a 1:1 figure is
`((0,0),(1/2,1/2))`, whose x-range width and y-range height are both `0`,
not strictly positive.
-/
theorem C2_counterexample :
    get_crop_limits [(0, 0), (0, 1)] 1 1 = .ok ((0, 0), (1/2, 1/2)) ∧
    ¬ (0 < (0:ℚ) - 0 ∧ 0 < (1/2:ℚ) - 1/2) := by
  constructor
  · norm_num [get_crop_limits, crop_from_extent, pymin, pymax]
  · norm_num

/--
Claim C2 amended: two distinct node positions are not enough (a vertical or
horizontal line of nodes yields a degenerate crop window); but whenever the
nodes contain two positions with distinct x-coordinates and two positions
with distinct y-coordinates (and the figure dimensions are positive), the
crop window has strictly positive x-range width and y-range height, so the
divisions by `xmax - xmin` and `ymax - ymin` in the coordinate projection
never divide by zero.
-/
theorem C2_amended_positive_ranges (nodes : List (ℚ × ℚ)) (figW figH : ℚ)
    (hW : 0 < figW) (hH : 0 < figH)
    (p q r s : ℚ × ℚ)
    (hp : p ∈ nodes) (hq : q ∈ nodes) (hr : r ∈ nodes) (hs : s ∈ nodes)
    (hpq : p.1 ≠ q.1) (hrs : r.2 ≠ s.2) :
    ∃ xlim ylim : ℚ × ℚ,
      get_crop_limits nodes figW figH = .ok (xlim, ylim) ∧
      0 < xlim.2 - xlim.1 ∧ 0 < ylim.2 - ylim.1 := by
  match nodes with
  | [] => cases hp
  | n :: rest =>
    have xlow : ∀ t : ℚ × ℚ, t ∈ n :: rest →
        pymin n.1 (rest.map Prod.fst) ≤ t.1 := by
      intro t ht
      rcases List.mem_cons.mp ht with rfl | ht
      · exact pymin_le_init _ _
      · exact pymin_le_mem _ _ _ (List.mem_map_of_mem Prod.fst ht)
    have xhigh : ∀ t : ℚ × ℚ, t ∈ n :: rest →
        t.1 ≤ pymax n.1 (rest.map Prod.fst) := by
      intro t ht
      rcases List.mem_cons.mp ht with rfl | ht
      · exact le_pymax_init _ _
      · exact le_pymax_mem _ _ _ (List.mem_map_of_mem Prod.fst ht)
    have ylow : ∀ t : ℚ × ℚ, t ∈ n :: rest →
        pymin n.2 (rest.map Prod.snd) ≤ t.2 := by
      intro t ht
      rcases List.mem_cons.mp ht with rfl | ht
      · exact pymin_le_init _ _
      · exact pymin_le_mem _ _ _ (List.mem_map_of_mem Prod.snd ht)
    have yhigh : ∀ t : ℚ × ℚ, t ∈ n :: rest →
        t.2 ≤ pymax n.2 (rest.map Prod.snd) := by
      intro t ht
      rcases List.mem_cons.mp ht with rfl | ht
      · exact le_pymax_init _ _
      · exact le_pymax_mem _ _ _ (List.mem_map_of_mem Prod.snd ht)
    have hxlt : pymin n.1 (rest.map Prod.fst) < pymax n.1 (rest.map Prod.fst) := by
      rcases eq_or_lt_of_le ((xlow p hp).trans (xhigh p hp)) with h | h
      · exfalso
        apply hpq
        have hpe : p.1 = pymin n.1 (rest.map Prod.fst) :=
          le_antisymm ((xhigh p hp).trans h.ge) (xlow p hp)
        have hqe : q.1 = pymin n.1 (rest.map Prod.fst) :=
          le_antisymm ((xhigh q hq).trans h.ge) (xlow q hq)
        rw [hpe, hqe]
      · exact h
    have hylt : pymin n.2 (rest.map Prod.snd) < pymax n.2 (rest.map Prod.snd) := by
      rcases eq_or_lt_of_le ((ylow r hr).trans (yhigh r hr)) with h | h
      · exfalso
        apply hrs
        have hre : r.2 = pymin n.2 (rest.map Prod.snd) :=
          le_antisymm ((yhigh r hr).trans h.ge) (ylow r hr)
        have hse : s.2 = pymin n.2 (rest.map Prod.snd) :=
          le_antisymm ((yhigh s hs).trans h.ge) (ylow s hs)
        rw [hre, hse]
      · exact h
    obtain ⟨xl, yl, h1, h2, h3, _⟩ :=
      crop_from_extent_spec _ _ _ _ figW figH hxlt hylt hW hH
    exact ⟨xl, yl, h1, h2, h3⟩

/-- Witness for the amended C2 at the concrete nodes `(0,0)`, `(1,1)`. -/
theorem C2_amended_positive_ranges_witness :
    ∃ xlim ylim : ℚ × ℚ,
      get_crop_limits [(0, 0), (1, 1)] 1 1 = .ok (xlim, ylim) ∧
      0 < xlim.2 - xlim.1 ∧ 0 < ylim.2 - ylim.1 :=
  C2_amended_positive_ranges [(0, 0), (1, 1)] 1 1 (by norm_num) (by norm_num)
    (0, 0) (1, 1) (0, 0) (1, 1) (List.mem_cons_self _ _)
    (List.mem_cons_of_mem _ (List.mem_cons_self _ _)) (List.mem_cons_self _ _)
    (List.mem_cons_of_mem _ (List.mem_cons_self _ _)) (by norm_num) (by norm_num)

/--
Claim C3 counterexample: a graph whose nodes all share the same
x-coordinate (zero-width extent) does not fail: `get_crop_limits` silently
returns the degenerate crop window `((5,5),(3/2,3/2))` instead of raising a
fatal error.
-/
theorem C3_counterexample :
    get_crop_limits [(5, 0), (5, 3)] 2 1 = .ok ((5, 5), (3/2, 3/2)) := by
  norm_num [get_crop_limits, crop_from_extent, pymin, pymax]

/--
Claim C3 amended: only a zero-HEIGHT extent is fatal — the division
`x_range / y_range` raises `ZeroDivisionError` before any result is
produced, and no NaN or infinite coordinate is ever created.  A zero-width
extent with positive height is NOT treated as an error: the solver silently
returns a degenerate crop window with both ranges zero.
-/
theorem C3_amended_degenerate_extent (minx maxx miny maxy figW figH : ℚ) :
    (maxy = miny →
      crop_from_extent minx maxx miny maxy figW figH = .error .zeroDivision) ∧
    (miny < maxy → 0 < figW → 0 < figH →
      crop_from_extent minx minx miny maxy figW figH =
        .ok ((minx, minx), ((miny + maxy) / 2, (miny + maxy) / 2))) := by
  constructor
  · intro h
    have hyr : maxy - miny = 0 := by rw [h, sub_self]
    by_cases hH : figH = 0
    · simp [crop_from_extent, hH]
    · simp [crop_from_extent, hH, hyr]
  · intro hy hW hH
    have hyr : (0:ℚ) < maxy - miny := sub_pos.mpr hy
    have hda : (0:ℚ) < figW / figH := div_pos hW hH
    have hca : (minx - minx) / (maxy - miny) = 0 := by
      rw [sub_self, zero_div]
    simp only [crop_from_extent, if_neg hH.ne', if_neg hyr.ne', hca,
      gt_iff_lt, if_neg (not_lt.mpr hda.le), if_pos hda, if_neg hda.ne',
      sub_self, zero_div]
    norm_num

/-- Witness for the amended C3: zero-height extent `0..1 × 2..2` fails with
`ZeroDivisionError`; zero-width extent `3..3 × 0..2` silently returns the
degenerate window at `((3,3),(1,1))`. -/
theorem C3_amended_degenerate_extent_witness :
    crop_from_extent 0 1 2 2 1 1 = .error .zeroDivision ∧
    crop_from_extent 3 3 0 2 1 1 = .ok ((3, 3), (1, 1)) := by
  constructor
  · exact (C3_amended_degenerate_extent 0 1 2 2 1 1).1 rfl
  · have h := (C3_amended_degenerate_extent 3 3 0 2 1 1).2 (by norm_num)
      (by norm_num) (by norm_num)
    simpa using h

/-! ## Claim C6: coordinate projection corners -/

/--
Claim C6: for every crop window with non-degenerate ranges and every canvas
size, `transform_coordinates` maps the four corners of the crop window to
the four corners of the canvas; in particular the vertical minimum maps to
canvas y = height and the vertical maximum maps to canvas y = 0.
-/
theorem C6_projection_maps_corners (xmin xmax ymin ymax w h : ℚ)
    (hx : xmin < xmax) (hy : ymin < ymax) :
    transform_coordinates
        [(xmin, ymin), (xmax, ymin), (xmin, ymax), (xmax, ymax)]
        (xmin, xmax) (ymin, ymax) w h =
      [(0, h), (w, h), (0, 0), (w, 0)] := by
  have hxd : xmax - xmin ≠ 0 := (sub_pos.mpr hx).ne'
  have hyd : ymax - ymin ≠ 0 := (sub_pos.mpr hy).ne'
  have e1 : (xmin - xmin) * (w / (xmax - xmin)) = 0 := by
    rw [sub_self, zero_mul]
  have e2 : (xmax - xmin) * (w / (xmax - xmin)) = w := by
    field_simp
  have e3 : (ymin - ymin) * (h / (ymax - ymin)) = 0 := by
    rw [sub_self, zero_mul]
  have e4 : (ymax - ymin) * (h / (ymax - ymin)) = h := by
    field_simp
  simp [transform_coordinates, e1, e2, e3, e4]

/-- Witness for C6 at the unit crop window and a 5 by 7 canvas. -/
theorem C6_projection_maps_corners_witness :
    transform_coordinates [((0:ℚ), (0:ℚ)), (1, 0), (0, 1), (1, 1)]
        (0, 1) (0, 1) 5 7 =
      [(0, 7), (5, 7), (0, 0), (5, 0)] :=
  C6_projection_maps_corners 0 1 0 1 5 7 (by norm_num) (by norm_num)

/-! ## Rail partition (`data_processing.fetch_and_process_map_data`) -/

/--
One row of the railway feature table: its geometry type plus the two tag
columns the partition reads (an absent tag is `none`; pandas `.get` on a
missing column compares unequal to any string).
-/
structure RailFeature where
  geomType : String
  railway : Option String
  subway : Option String
deriving DecidableEq, Repr

/-- Restriction to line geometries (data_processing.py line 156). -/
def railways_line (railways : List RailFeature) : List RailFeature :=
  railways.filter (fun f =>
    decide (f.geomType = "LineString" ∨ f.geomType = "MultiLineString"))

/--
Subway test (data_processing.py lines 159-162): the `railway` tag is
`subway` or `light_rail`, or the `subway` tag equals `yes`.
-/
def is_subway_line (f : RailFeature) : Bool :=
  decide (f.railway = some ("subway") ∨ f.railway = some ("light_rail") ∨
    f.subway = some ("yes"))

/-- The subway/light-rail partition (line 159). -/
def subway_lines (rl : List RailFeature) : List RailFeature :=
  rl.filter is_subway_line

/--
Assignment `normal_rail = railways_line.drop(subway_lines.index)` (line 163): each row
has a unique index, so dropping the subway rows keeps exactly the rows
failing the subway test, in order.
-/
def normal_rail (rl : List RailFeature) : List RailFeature :=
  rl.filter (fun f => ! is_subway_line f)

/--
Claim C4: for every rail table restricted to line geometries, the subway
and normal-rail partitions are disjoint, their union is the whole
restricted collection, a feature is in the subway partition exactly when
the subway test holds of it, and the `railway=subway` / `railway=rail`
two-row table splits one feature into each partition.
-/
theorem C4_rail_partition (railways : List RailFeature) :
    (∀ f, f ∈ subway_lines (railways_line railways) →
        f ∈ normal_rail (railways_line railways) → False) ∧
    (∀ f, f ∈ railways_line railways ↔
        f ∈ subway_lines (railways_line railways) ∨
        f ∈ normal_rail (railways_line railways)) ∧
    (subway_lines (railways_line railways)).length +
        (normal_rail (railways_line railways)).length =
      (railways_line railways).length ∧
    (∀ f, f ∈ railways_line railways →
        (f ∈ subway_lines (railways_line railways) ↔
          is_subway_line f = true)) ∧
    subway_lines (railways_line
        [⟨"LineString", some ("subway"), none⟩,
         ⟨"LineString", some ("rail"), none⟩]) =
      [⟨"LineString", some ("subway"), none⟩] ∧
    normal_rail (railways_line
        [⟨"LineString", some ("subway"), none⟩,
         ⟨"LineString", some ("rail"), none⟩]) =
      [⟨"LineString", some ("rail"), none⟩] := by
  refine ⟨?_, ?_, ?_, ?_, by decide, by decide⟩
  · intro f h1 h2
    have b1 := (List.mem_filter.mp h1).2
    have b2 := (List.mem_filter.mp h2).2
    rw [b1] at b2
    cases b2
  · intro f
    constructor
    · intro hf
      cases hb : is_subway_line f with
      | true => exact Or.inl (List.mem_filter.mpr ⟨hf, hb⟩)
      | false =>
          exact Or.inr (List.mem_filter.mpr ⟨hf, by rw [hb]; rfl⟩)
    · intro hf
      rcases hf with hf | hf
      · exact (List.mem_filter.mp hf).1
      · exact (List.mem_filter.mp hf).1
  · generalize railways_line railways = rl
    induction rl with
    | nil => rfl
    | cons a l ih =>
        rw [subway_lines, normal_rail] at ih ⊢
        rw [List.filter_cons, List.filter_cons]
        cases hb : is_subway_line a <;> simp [hb] <;> omega
  · intro f hf
    constructor
    · intro hs
      exact (List.mem_filter.mp hs).2
    · intro hb
      exact List.mem_filter.mpr ⟨hf, hb⟩

/-- Witness for C4 on the concrete two-row table of the spec's scenario D. -/
theorem C4_rail_partition_witness :
    ((⟨"LineString", some ("subway"), none⟩ : RailFeature) ∈
        subway_lines (railways_line
          [⟨"LineString", some ("subway"), none⟩,
           ⟨"LineString", some ("rail"), none⟩]) ↔
      is_subway_line ⟨"LineString", some ("subway"), none⟩ = true) ∧
    (subway_lines (railways_line
        [⟨"LineString", some ("subway"), none⟩,
         ⟨"LineString", some ("rail"), none⟩])).length +
      (normal_rail (railways_line
        [⟨"LineString", some ("subway"), none⟩,
         ⟨"LineString", some ("rail"), none⟩])).length =
      (railways_line
        [⟨"LineString", some ("subway"), none⟩,
         ⟨"LineString", some ("rail"), none⟩]).length :=
  ⟨(C4_rail_partition
      [⟨"LineString", some ("subway"), none⟩,
       ⟨"LineString", some ("rail"), none⟩]).2.2.2.1 _ (by decide),
   (C4_rail_partition
      [⟨"LineString", some ("subway"), none⟩,
       ⟨"LineString", some ("rail"), none⟩]).2.2.1⟩

/-! ## Road classification (both emitters) -/

/--
The `highway` attribute of an edge: absent, a single string value, or an
ordered list of values (OSMnx merges parallel ways into lists).
-/
inductive HighwayAttr where
  | absent
  | str (value : String)
  | list (values : List String)
deriving DecidableEq, Repr

/-- The six road tiers of both emitters. -/
inductive RoadTier where
  | motorway
  | primary
  | secondary
  | tertiary
  | residential
  | other
deriving DecidableEq, Repr

/-- The six tiers in the order of the `road_types` dict
(svg_renderer.py lines 292-299). -/
def allRoadTiers : List RoadTier :=
  [.motorway, .primary, .secondary, .tertiary, .residential, .other]

/-- Theme: flat mapping of role → color; the required keys of themes.py. -/
structure Theme where
  bg : String
  text : String
  gradient_color : String
  water : String
  parks : String
  railway : String
  road_motorway : String
  road_primary : String
  road_secondary : String
  road_tertiary : String
  road_residential : String
  road_default : String
deriving DecidableEq, Repr

/--
Snippet `highway = data.get('highway', 'unclassified')` followed by
`highway = highway[0] if highway else 'unclassified'` for lists.  This
snippet is verbatim-identical in `get_edge_colors_by_type`
(rendering.py lines 79-82), `get_edge_widths_by_type` (lines 115-118) and
`add_roads_by_type` (svg_renderer.py lines 302-305), so it is embedded
once.
-/
def normalize_highway : HighwayAttr → String
  | .absent => "unclassified"
  | .str v => v
  | .list [] => "unclassified"
  | .list (v :: _) => v

/-- Per-edge body of `get_edge_colors_by_type` (rendering.py lines 79-95):
the raster emitter's color assignment. -/
def get_edge_color (theme : Theme) (a : HighwayAttr) : String :=
  let highway := normalize_highway a
  if highway = "motorway" ∨ highway = "motorway_link" then
    theme.road_motorway
  else if highway = "trunk" ∨ highway = "trunk_link" ∨
      highway = "primary" ∨ highway = "primary_link" then
    theme.road_primary
  else if highway = "secondary" ∨ highway = "secondary_link" then
    theme.road_secondary
  else if highway = "tertiary" ∨ highway = "tertiary_link" then
    theme.road_tertiary
  else if highway = "residential" ∨ highway = "living_street" ∨
      highway = "unclassified" then
    theme.road_residential
  else
    theme.road_default

/-- Function `get_edge_colors_by_type` (rendering.py lines 65-99): one color per
edge, in edge order. -/
def get_edge_colors_by_type (theme : Theme) (edges : List HighwayAttr) :
    List String :=
  edges.map (get_edge_color theme)

/-- Per-edge body of `get_edge_widths_by_type` (rendering.py lines
115-131); note its final `else` covers both residential-class and
unrecognized values. -/
def get_edge_width (a : HighwayAttr) : ℚ :=
  let highway := normalize_highway a
  if highway = "motorway" ∨ highway = "motorway_link" then 12/10
  else if highway = "trunk" ∨ highway = "trunk_link" ∨
      highway = "primary" ∨ highway = "primary_link" then 1
  else if highway = "secondary" ∨ highway = "secondary_link" then 8/10
  else if highway = "tertiary" ∨ highway = "tertiary_link" then 6/10
  else 4/10

/-- Function `get_edge_widths_by_type` (rendering.py lines 102-133). -/
def get_edge_widths_by_type (edges : List HighwayAttr) : List ℚ :=
  edges.map get_edge_width

/-- The classification chain of `add_roads_by_type`
(svg_renderer.py lines 317-329): the vector emitter's tier assignment. -/
def svg_classify_road (a : HighwayAttr) : RoadTier :=
  let highway := normalize_highway a
  if highway = "motorway" ∨ highway = "motorway_link" then .motorway
  else if highway = "trunk" ∨ highway = "trunk_link" ∨
      highway = "primary" ∨ highway = "primary_link" then .primary
  else if highway = "secondary" ∨ highway = "secondary_link" then .secondary
  else if highway = "tertiary" ∨ highway = "tertiary_link" then .tertiary
  else if highway = "residential" ∨ highway = "living_street" ∨
      highway = "unclassified" then .residential
  else .other

/-- The key of each tier in the `road_types` dict
(svg_renderer.py lines 292-299). -/
def road_type_name : RoadTier → String
  | .motorway => "motorway"
  | .primary => "primary"
  | .secondary => "secondary"
  | .tertiary => "tertiary"
  | .residential => "residential"
  | .other => "other"

/-- The `color` entry of each tier in the `road_types` dict
(svg_renderer.py lines 292-299). -/
def road_type_color (theme : Theme) : RoadTier → String
  | .motorway => theme.road_motorway
  | .primary => theme.road_primary
  | .secondary => theme.road_secondary
  | .tertiary => theme.road_tertiary
  | .residential => theme.road_residential
  | .other => theme.road_default

/-- The `width` entry of each tier in the `road_types` dict
(svg_renderer.py lines 292-299). -/
def road_type_width : RoadTier → ℚ
  | .motorway => 12/10
  | .primary => 1
  | .secondary => 8/10
  | .tertiary => 6/10
  | .residential => 4/10
  | .other => 4/10

/-- The per-tier edge bucket built by the loop of `add_roads_by_type`
(svg_renderer.py lines 301-329), in edge order. -/
def svg_road_group (edges : List HighwayAttr) (t : RoadTier) :
    List HighwayAttr :=
  edges.filter (fun e => decide (svg_classify_road e = t))

/--
Claim C5: road classification is a total function into the six tiers —
every highway attribute (absent, string, or list) is assigned exactly one
tier — and it is idempotent: classifying the name of an already-assigned
tier yields that same tier.
-/
theorem C5_classification_total_idempotent :
    (∀ a : HighwayAttr,
      svg_classify_road a = .motorway ∨ svg_classify_road a = .primary ∨
      svg_classify_road a = .secondary ∨ svg_classify_road a = .tertiary ∨
      svg_classify_road a = .residential ∨ svg_classify_road a = .other) ∧
    (∀ t : RoadTier,
      svg_classify_road (.str (road_type_name t)) = t) := by
  constructor
  · intro a
    cases h : svg_classify_road a <;> simp
  · intro t
    cases t <;> decide

/--
Claim C10: an edge whose highway attribute is an empty list is treated by
both emitters exactly like an absent attribute — the `unclassified`
fallback — so it lands in the residential tier and gets the residential
color and width; no indexing into the empty list ever happens.
-/
theorem C10_empty_highway_list (theme : Theme) :
    svg_classify_road (.list []) = .residential ∧
    svg_classify_road (.list []) = svg_classify_road .absent ∧
    get_edge_color theme (.list []) = theme.road_residential ∧
    get_edge_color theme (.list []) = get_edge_color theme .absent ∧
    get_edge_width (.list []) = get_edge_width .absent := by
  refine ⟨by decide, by decide, ?_, rfl, rfl⟩
  rfl

/-! ## Emitter layer parity (C7) -/

/--
Function `project_and_filter_features` (osm_data.py lines 89-116): drop a missing or
empty table, keep only the requested geometry types, drop the table if
nothing remains.  Projection changes coordinates only, never rows or
geometry types, so it is the identity on this model.
-/
def project_and_filter_features {α : Type} (geomType : α → String)
    (features : Option (List α)) (geometry_types : List String) :
    Option (List α) :=
  match features with
  | none => none
  | some l =>
    if l.isEmpty then none
    else
      let filtered := l.filter (fun f => decide (geomType f ∈ geometry_types))
      if filtered.isEmpty then none else some filtered

/--
ProcessedSession: the fields of the dict returned by
`fetch_and_process_map_data` that determine layer membership.  A polygon
table row is represented by its geometry type string; a rail row by its
`RailFeature` record; an edge by its highway attribute.
-/
structure Session where
  edges : List HighwayAttr
  water_polys_proj : Option (List String)
  parks_polys_proj : Option (List String)
  normal_rail_proj : Option (List RailFeature)
  subway_lines_proj : Option (List RailFeature)

/-- Features drawn by the raster emitter for an optional polygon table
(rendering.py lines 262-268: plot every row when the table is present and
non-empty). -/
def raster_polygon_features (gdf : Option (List String)) : Nat :=
  match gdf with
  | none => 0
  | some l => if l.isEmpty then 0 else l.length

/-- Features drawn by the raster emitter for an optional rail table
(rendering.py lines 270-275). -/
def raster_line_features (gdf : Option (List RailFeature)) : Nat :=
  match gdf with
  | none => 0
  | some l => if l.isEmpty then 0 else l.length

/-- Features emitted by `add_polygon_layer` (svg_renderer.py lines
165-217): a missing or empty table produces no group; otherwise each
MultiPolygon or Polygon row becomes path elements of the group. -/
def add_polygon_layer_features (gdf : Option (List String)) : Nat :=
  match gdf with
  | none => 0
  | some l =>
    if l.isEmpty then 0
    else (l.filter (fun g =>
      decide (g = "MultiPolygon" ∨ g = "Polygon"))).length

/-- Features emitted by `add_linestring_layer` (svg_renderer.py lines
220-275). -/
def add_linestring_layer_features (gdf : Option (List RailFeature)) : Nat :=
  match gdf with
  | none => 0
  | some l =>
    if l.isEmpty then 0
    else (l.filter (fun f =>
      decide (f.geomType = "MultiLineString" ∨
        f.geomType = "LineString"))).length

/--
The map collections the raster emitter adds to the axes, in insertion
order, paired with the zorder passed at creation: water 1, parks 2, normal
rail 8, subway 9 (rendering.py lines 262-275), then the road edge
collection drawn by `ox.plot_graph` (line 281) with whatever zorder OSMnx
uses, abstracted here as `roads_z`.
-/
def raster_collections (roads_z : Nat) : List (String × Nat) :=
  [("water", 1), ("parks", 2), ("railways", 8), ("subway", 9),
   ("roads", roads_z)]

/--
The loop `for coll in ax.collections: coll.set_zorder(5)` (rendering.py
lines 289-290): geopandas `plot` and `ox.plot_graph` both add their
artists to `ax.collections`, so this loop resets the zorder of EVERY map
collection — water, parks, rail and subway included — to 5.  The imaging
canvas draws artists in zorder order, stably, so collections with equal
zorder stack in insertion order.
-/
def set_all_zorder_five (layers : List (String × Nat)) :
    List (String × Nat) :=
  layers.map (fun l => (l.1, 5))

/-- Document order of the vector emitter's map layers — document order is
z-order in the vector format (svg_renderer.py lines 513-537). -/
def svg_layer_sequence : List String :=
  ["water", "parks", "roads", "railways", "subway"]

/-- The raster color assignment factors through the vector emitter's tier
classification followed by the tier color table: both emitters classify
identically. -/
theorem edge_color_factors (theme : Theme) (a : HighwayAttr) :
    get_edge_color theme a = road_type_color theme (svg_classify_road a) := by
  simp only [get_edge_color, svg_classify_road]
  split_ifs <;> rfl

/-- The raster width assignment also factors through the vector emitter's
tier classification. -/
theorem edge_width_factors (a : HighwayAttr) :
    get_edge_width a = road_type_width (svg_classify_road a) := by
  simp only [get_edge_width, svg_classify_road]
  split_ifs <;> rfl

/-- The six per-tier buckets of the vector emitter partition the edge
list: every edge lands in exactly one bucket. -/
theorem svg_road_group_partition (edges : List HighwayAttr) :
    ((allRoadTiers.map
        (fun t => (svg_road_group edges t).length)).sum) = edges.length := by
  induction edges with
  | nil => rfl
  | cons e es ih =>
      simp only [allRoadTiers, List.map_cons, List.map_nil, List.sum_cons,
        List.sum_nil, svg_road_group, List.filter_cons] at ih ⊢
      cases h : svg_classify_road e <;> simp [h] <;> omega

/-- Present, non-empty tables of the session's geometry kind give the same
feature count in both emitters. -/
theorem polygon_features_agree (gdf : Option (List String))
    (h : ∀ g ∈ gdf.getD [], g = "Polygon" ∨ g = "MultiPolygon") :
    raster_polygon_features gdf = add_polygon_layer_features gdf := by
  cases gdf with
  | none => rfl
  | some l =>
      simp only [Option.getD_some] at h
      simp only [raster_polygon_features, add_polygon_layer_features]
      have hf : l.filter (fun g =>
          decide (g = "MultiPolygon" ∨ g = "Polygon")) = l := by
        apply List.filter_eq_self.mpr
        intro a ha
        rcases h a ha with h1 | h1 <;> simp [h1]
      rw [hf]

/-- The rail analogue of `polygon_features_agree`. -/
theorem line_features_agree (gdf : Option (List RailFeature))
    (h : ∀ f ∈ gdf.getD [],
      f.geomType = "LineString" ∨ f.geomType = "MultiLineString") :
    raster_line_features gdf = add_linestring_layer_features gdf := by
  cases gdf with
  | none => rfl
  | some l =>
      simp only [Option.getD_some] at h
      simp only [raster_line_features, add_linestring_layer_features]
      have hf : l.filter (fun f =>
          decide (f.geomType = "MultiLineString" ∨
            f.geomType = "LineString")) = l := by
        apply List.filter_eq_self.mpr
        intro a ha
        rcases h a ha with h1 | h1 <;> simp [h1]
      rw [hf]

/--
Claim C7 counterexample: the raster emitter does NOT stack its layers in
the vector emitter's z-order.  After `ox.plot_graph` it resets the zorder
of every collection on the axes to 5 — including water, parks, normal rail
and subway, which were created with zorder 1, 2, 8 and 9 — so the raster
map layers stack purely by insertion order, water, parks, railways,
subway, roads, putting roads ABOVE rail and subway; the vector document
stacks water, parks, roads, railways, subway, with rail and subway above
roads.
-/
theorem C7_counterexample :
    set_all_zorder_five (raster_collections 1) =
      [("water", 5), ("parks", 5), ("railways", 5), ("subway", 5),
       ("roads", 5)] ∧
    (set_all_zorder_five (raster_collections 1)).map Prod.fst ≠
      svg_layer_sequence := by
  constructor
  · rfl
  · decide

/--
Claim C7 amended: for every session whose feature tables hold the geometry
kinds the processing stage guarantees, and every theme, the raster and the
vector emitter produce the same layer MEMBERSHIP — equal feature counts
for water, parks, normal rail and subway, and road colors and widths that
factor through the same tier classification (so each road tier holds the
same edges in both emitters, and the six tiers partition the edges) — but
NOT the same z-order: the raster emitter resets every map collection's
zorder to 5, so its layers stack in insertion order (water, parks,
railways, subway, roads), which differs from the vector document's order
(water, parks, roads, railways, subway).
-/
theorem C7_emitter_layer_parity (theme : Theme) (s : Session) (roads_z : Nat)
    (hw : ∀ g ∈ s.water_polys_proj.getD [],
      g = "Polygon" ∨ g = "MultiPolygon")
    (hp : ∀ g ∈ s.parks_polys_proj.getD [],
      g = "Polygon" ∨ g = "MultiPolygon")
    (hn : ∀ f ∈ s.normal_rail_proj.getD [],
      f.geomType = "LineString" ∨ f.geomType = "MultiLineString")
    (hu : ∀ f ∈ s.subway_lines_proj.getD [],
      f.geomType = "LineString" ∨ f.geomType = "MultiLineString") :
    raster_polygon_features s.water_polys_proj =
        add_polygon_layer_features s.water_polys_proj ∧
    raster_polygon_features s.parks_polys_proj =
        add_polygon_layer_features s.parks_polys_proj ∧
    raster_line_features s.normal_rail_proj =
        add_linestring_layer_features s.normal_rail_proj ∧
    raster_line_features s.subway_lines_proj =
        add_linestring_layer_features s.subway_lines_proj ∧
    get_edge_colors_by_type theme s.edges =
        s.edges.map (fun e => road_type_color theme (svg_classify_road e)) ∧
    get_edge_widths_by_type s.edges =
        s.edges.map (fun e => road_type_width (svg_classify_road e)) ∧
    ((allRoadTiers.map
        (fun t => (svg_road_group s.edges t).length)).sum = s.edges.length) ∧
    set_all_zorder_five (raster_collections roads_z) =
      [("water", 5), ("parks", 5), ("railways", 5), ("subway", 5),
       ("roads", 5)] ∧
    (set_all_zorder_five (raster_collections roads_z)).map Prod.fst ≠
      svg_layer_sequence := by
  refine ⟨polygon_features_agree _ hw, polygon_features_agree _ hp,
    line_features_agree _ hn, line_features_agree _ hu, ?_, ?_,
    svg_road_group_partition s.edges, rfl, ?_⟩
  · exact List.map_congr_left (fun e _ => edge_color_factors theme e)
  · exact List.map_congr_left (fun e _ => edge_width_factors e)
  · have hnames : (set_all_zorder_five (raster_collections roads_z)).map
        Prod.fst = ["water", "parks", "railways", "subway", "roads"] := rfl
    rw [hnames]
    decide

/-- The embedded fallback theme of themes.py (lines 49-63). -/
def feature_based_theme : Theme :=
  ⟨"#FFFFFF", "#000000", "#FFFFFF", "#C0C0C0", "#F0F0F0", "#DEE200",
   "#0A0A0A", "#1A1A1A", "#2A2A2A", "#3A3A3A", "#4A4A4A", "#3A3A3A"⟩

/-- Witness for C7 on a one-edge, one-water-polygon, one-subway-line
session under the fallback theme. -/
theorem C7_emitter_layer_parity_witness :
    raster_polygon_features (some ["Polygon"]) =
        add_polygon_layer_features (some ["Polygon"]) ∧
    raster_polygon_features (none : Option (List String)) =
        add_polygon_layer_features none ∧
    raster_line_features (none : Option (List RailFeature)) =
        add_linestring_layer_features none ∧
    raster_line_features (some [⟨"LineString", some ("subway"), none⟩]) =
        add_linestring_layer_features
          (some [⟨"LineString", some ("subway"), none⟩]) ∧
    get_edge_colors_by_type feature_based_theme [.str ("motorway")] =
        [.str ("motorway")].map
          (fun e => road_type_color feature_based_theme
            (svg_classify_road e)) ∧
    get_edge_widths_by_type [.str ("motorway")] =
        [(.str ("motorway") : HighwayAttr)].map
          (fun e => road_type_width (svg_classify_road e)) ∧
    ((allRoadTiers.map
        (fun t => (svg_road_group [.str ("motorway")] t).length)).sum =
      [(.str ("motorway") : HighwayAttr)].length) ∧
    set_all_zorder_five (raster_collections 1) =
      [("water", 5), ("parks", 5), ("railways", 5), ("subway", 5),
       ("roads", 5)] ∧
    (set_all_zorder_five (raster_collections 1)).map Prod.fst ≠
      svg_layer_sequence :=
  C7_emitter_layer_parity feature_based_theme
    ⟨[.str ("motorway")], some ["Polygon"], none, none,
     some [⟨"LineString", some ("subway"), none⟩]⟩ 1
    (by decide) (by decide) (by decide) (by decide)

/-! ## Theme batch loop (`create_map_poster.main`) -/

/-- Outcome of a batch run: either all themes rendered, or the run was
aborted by the top-level exception handler (which prints the error and
exits with status 1); `generated` lists the renders that completed. -/
inductive BatchOutcome where
  | success (generated : List String)
  | aborted (generated : List String) (err : String)
deriving DecidableEq, Repr

/-- The loop body: render each theme in turn and collect it; an exception
escapes the loop to the single surrounding `except` handler. -/
def main_render_loop_go (render : String → Except String Unit) :
    List String → List String → BatchOutcome
  | [], acc => .success acc.reverse
  | t :: ts, acc =>
      match render t with
      | .ok _ => main_render_loop_go render ts (t :: acc)
      | .error e => .aborted acc.reverse e

/--
The per-theme render loop of `main` (create_map_poster.py lines 203-272):
the whole `for theme_name in themes_to_process` loop lives inside one
`try`/`except`, so an exception raised while rendering one theme reaches
the handler, which reports it and calls `sys.exit(1)`.  A render call is
modelled as `Except String Unit`; a theme stands for its output file.
-/
def main_render_loop (render : String → Except String Unit)
    (themes_to_process : List String) : BatchOutcome :=
  main_render_loop_go render themes_to_process []

/--
Claim C8 counterexample: in the batch `["first", "bad", "third"]`, where
rendering `"bad"` raises, the run aborts with only `"first"` generated —
the batch does NOT continue with `"third"`.
-/
theorem C8_counterexample :
    main_render_loop
        (fun t => if t = "bad" then .error "render failed" else .ok ())
        ["first", "bad", "third"] =
      .aborted ["first"] "render failed" ∧
    ¬ ("third" ∈ ["first"]) := by
  constructor
  · rfl
  · decide

/--
Claim C8 amended: a render error raised while rendering one theme DOES
abort the renders of the remaining themes: the loop stops at the first
failing theme, exactly the themes before it are generated, and the error
is reported by the top-level handler as the run exits.
-/
theorem C8_amended_abort_on_first_failure
    (render : String → Except String Unit) (done : List String)
    (t : String) (rest : List String) (e : String)
    (hok : ∀ x ∈ done, render x = .ok ())
    (herr : render t = .error e) :
    main_render_loop render (done ++ t :: rest) = .aborted done e := by
  have go : ∀ (ds : List String) (acc : List String),
      (∀ x ∈ ds, render x = .ok ()) →
      main_render_loop_go render (ds ++ t :: rest) acc =
        .aborted (acc.reverse ++ ds) e := by
    intro ds
    induction ds with
    | nil =>
        intro acc _
        simp only [List.nil_append, main_render_loop_go, herr,
          List.append_nil]
    | cons d ds ih =>
        intro acc hall
        have hd : render d = .ok () := hall d (List.mem_cons_self _ _)
        simp only [List.cons_append, main_render_loop_go, hd, List.append_eq]
        rw [ih (d :: acc) (fun x hx => hall x (List.mem_cons_of_mem _ hx))]
        simp
  have h := go done [] hok
  simpa [main_render_loop] using h

/-- Witness for the amended C8: concrete batch `["a", "b", "c"]` failing
at `"b"`. -/
theorem C8_amended_abort_on_first_failure_witness :
    main_render_loop
        (fun t => if t = "b" then .error "boom" else .ok ())
        (["a"] ++ "b" :: ["c"]) =
      .aborted ["a"] "boom" :=
  C8_amended_abort_on_first_failure
    (fun t => if t = "b" then .error "boom" else .ok ())
    ["a"] "b" ["c"] "boom"
    (by
      intro x hx
      rcases List.mem_singleton.mp hx with rfl
      rfl)
    (by rfl)

/-! ## Title font size (`rendering.render_poster_from_processed_data`) -/

/--
The title font sizing of the raster emitter (rendering.py lines 301-308):
base size 60; past 10 characters the size shrinks proportionally with a
floor of 24, which is 40% of the base size.
-/
def adjusted_font_size (city : String) : ℚ :=
  let base_font_size : ℚ := 60
  let city_char_count := city.length
  if city_char_count > 10 then
    let scale_factor : ℚ := 10 / (city_char_count : ℚ)
    max (base_font_size * scale_factor) 24
  else base_font_size

/-- Python `int()` applied to a float: truncation toward zero. -/
def pyint (q : ℚ) : ℤ :=
  if q < 0 then -Int.floor (-q) else Int.floor q

/--
Title font sizing of the vector emitter (`add_text_layer`,
svg_renderer.py lines 383-397): the base size 60 and the floor 24 are
scaled by `width / 4800` and truncated to int, and past 10 characters the
already-truncated base is multiplied by `10 / len` and truncated again.
-/
def svg_font_city (city : String) (width : ℚ) : ℤ :=
  let base_width : ℚ := 4800
  let scale_factor := width / base_width
  let font_city := pyint (60 * scale_factor)
  let city_char_count := city.length
  if city_char_count > 10 then
    let city_scale : ℚ := 10 / (city_char_count : ℚ)
    max (pyint ((font_city : ℚ) * city_scale)) (pyint (24 * scale_factor))
  else font_city

theorem pyint_of_nonneg (q : ℚ) (h : 0 ≤ q) : pyint q = Int.floor q := by
  rw [pyint, if_neg (not_lt.mpr h)]

theorem pyint_sixty : pyint (60 : ℚ) = 60 := by
  rw [pyint_of_nonneg _ (by norm_num),
    show ((60:ℚ)) = ((60:ℤ):ℚ) by norm_num, Int.floor_intCast]

theorem pyint_twentyfour : pyint (24 : ℚ) = 24 := by
  rw [pyint_of_nonneg _ (by norm_num),
    show ((24:ℚ)) = ((24:ℤ):ℚ) by norm_num, Int.floor_intCast]

/-- Truncation commutes with the `max` against the integer floor value 24. -/
theorem pyint_max_twentyfour (a : ℚ) (ha : 0 ≤ a) :
    pyint (max a 24) = max (pyint a) 24 := by
  have h24 : Int.floor (24 : ℚ) = 24 := by
    rw [show ((24:ℚ)) = ((24:ℤ):ℚ) by norm_num, Int.floor_intCast]
  rw [pyint_of_nonneg _ (le_trans (by norm_num : (0:ℚ) ≤ 24)
      (le_max_right a 24)),
    pyint_of_nonneg _ ha]
  rcases le_total a 24 with h | h
  · rw [max_eq_right h, h24, max_eq_right]
    rw [← h24]
    exact Int.floor_mono h
  · rw [max_eq_left h, max_eq_left]
    rw [← h24]
    exact Int.floor_mono h

/--
Claim C9 counterexample: the vector emitter truncates to integers at each
step, so its title size does not equal `max(base * 10/len, 0.4 * base)`:
a 13-character name at the reference width 4800 (scale factor 1) yields
`int(60 * 10/13) = 46`, while the claimed formula gives `600/13` — not an
integer at all.
-/
theorem C9_counterexample :
    svg_font_city "abcdefghijklm" 4800 = 46 ∧
    ((46 : ℚ) ≠ max ((60 : ℚ) * 10 / 13) (4/10 * 60)) := by
  constructor
  · have hl : ("abcdefghijklm" : String).length = 13 := rfl
    have hsc : (4800 : ℚ) / 4800 = 1 := by norm_num
    simp only [svg_font_city, hl]
    rw [if_pos (by norm_num : (13:ℕ) > 10), hsc, mul_one, mul_one,
      pyint_sixty, pyint_twentyfour]
    have h46 : pyint (((60:ℤ):ℚ) * (10 / ((13:ℕ):ℚ))) = 46 := by
      rw [pyint_of_nonneg _ (by positivity), Int.floor_eq_iff]
      push_cast
      constructor <;> norm_num
    rw [h46]
    norm_num [max_def]
  · intro h
    rw [max_eq_left (by norm_num : (4:ℚ)/10 * 60 ≤ 60 * 10 / 13)] at h
    norm_num at h

/--
Claim C9 amended: the raster emitter's title size follows the exact
formula — above 10 characters `max(60 * 10/len, 0.4 * 60)`, otherwise the
base size 60, and a 15-character name gives `max(60 * 10/15, 0.4 * 60)` —
but the vector emitter computes that formula with Python `int()`
truncation at each step: at the reference width 4800 (scale factor 1) its
title size equals the integer truncation of the raster emitter's size,
which can fall below the exact value.
-/
theorem C9_title_font_size_amended (city : String) :
    (city.length > 10 →
      adjusted_font_size city =
        max ((60 : ℚ) * 10 / (city.length : ℚ)) (4/10 * 60)) ∧
    (city.length ≤ 10 → adjusted_font_size city = 60) ∧
    (city.length = 15 →
      adjusted_font_size city = max ((60 : ℚ) * 10 / 15) (4/10 * 60)) ∧
    svg_font_city city 4800 = pyint (adjusted_font_size city) := by
  have hsc : (4800 : ℚ) / 4800 = 1 := by norm_num
  refine ⟨?_, ?_, ?_, ?_⟩
  · intro h
    simp only [adjusted_font_size, if_pos h]
    rw [mul_div_assoc]
    norm_num
  · intro h
    simp only [adjusted_font_size, if_neg (by omega : ¬ city.length > 10)]
  · intro h
    simp only [adjusted_font_size, h]
    norm_num
  · by_cases h : city.length > 10
    · simp only [svg_font_city, adjusted_font_size, if_pos h, hsc, mul_one,
        pyint_sixty, pyint_twentyfour]
      have ha : (0:ℚ) ≤ 60 * (10 / (city.length : ℚ)) := by positivity
      rw [pyint_max_twentyfour _ ha]
      push_cast
      rfl
    · simp only [svg_font_city, adjusted_font_size, if_neg h, hsc, mul_one,
        pyint_sixty]

/-- Witness for the amended C9 on a concrete 15-character city name. -/
theorem C9_title_font_size_amended_witness :
    adjusted_font_size "abcdefghijklmno" =
      max ((60 : ℚ) * 10 / 15) (4/10 * 60) ∧
    svg_font_city "abcdefghijklmno" 4800 =
      pyint (adjusted_font_size "abcdefghijklmno") :=
  ⟨(C9_title_font_size_amended "abcdefghijklmno").2.2.1 (by rfl),
   (C9_title_font_size_amended "abcdefghijklmno").2.2.2⟩
